import Mathlib

/-!
Verification development for the baby-name dashboard's core pipeline
(`src/main.py`): the dataset loader `load_name_data` (network fetch, zip
member parsing, per-file CSV parsing, `pct` group transform), the
one-hit-wonder extractor `ohw`, and the sidebar filter (`data_filtered`,
lines 79-83).

The loader is embedded at the level of an already-fetched archive: a
`Fetch` value carries the transport outcome, the HTTP status and, when the
body is a valid zip, the archive as a list of (member name, lines).
Cells hold the values `pd.read_csv(f, header=None)` produces for this
pipeline's comma-separated data: a missing value (`NaN`, from a padded
short row or an empty field), a number, or a non-numeric string.  The
modelled slice of pandas behaviour: blank lines are skipped; the first
non-blank line fixes the column count; a later line with more fields
raises `ParserError`; a line with fewer fields is padded with `NaN`;
assigning 3 column names to a table of a different width raises
`ValueError`; dividing a `count` column that contains a non-numeric
string raises `TypeError`; `groupby(['year','sex'])` drops `NaN` keys and
its `sum` skips `NaN`; a division whose result is non-finite
(`x/0`, `NaN/s`) is modelled as `none`.  NA tokens such as "NA" and
scientific notation, which never arise in the inputs considered here, are
outside the modelled slice.
-/

/-- Decidable equality for `Except`, used to evaluate the embedding at
concrete inputs. -/
def exceptDecEq {ε α : Type} [DecidableEq ε] [DecidableEq α] :
    (a b : Except ε α) → Decidable (a = b)
  | .error e, .error f =>
    if h : e = f then .isTrue (congrArg Except.error h)
    else .isFalse (fun hc => h (by injection hc))
  | .error _, .ok _ => .isFalse (fun hc => Except.noConfusion hc)
  | .ok _, .error _ => .isFalse (fun hc => Except.noConfusion hc)
  | .ok a, .ok b =>
    if h : a = b then .isTrue (congrArg Except.ok h)
    else .isFalse (fun hc => h (by injection hc))

instance {ε α : Type} [DecidableEq ε] [DecidableEq α] : DecidableEq (Except ε α) :=
  exceptDecEq

/-- Numeric value of a list of decimal digit characters. -/
def natOfDigits (cs : List Char) : Nat :=
  cs.foldl (fun a c => 10 * a + (c.toNat - 48)) 0

/-- Numeric parse of a CSV cell, as pandas type inference treats this
pipeline's data: optional sign, then an integer or a decimal fraction. -/
def pyNum? (s : String) : Option ℚ :=
  let core : List Char → Option ℚ := fun u =>
    let ip := u.takeWhile Char.isDigit
    let rest := u.dropWhile Char.isDigit
    match rest with
    | [] => if ip.isEmpty then none else some ((natOfDigits ip : ℚ))
    | '.' :: fp =>
      if fp.all Char.isDigit && !(ip.isEmpty && fp.isEmpty) then
        some ((natOfDigits ip : ℚ) + (natOfDigits fp : ℚ) / (10 : ℚ) ^ fp.length)
      else none
    | _ => none
  match s.toList with
  | '-' :: u => (core u).map (fun q => -q)
  | '+' :: u => core u
  | t => core t

/-- Digits-only value used by `pyInt?`. -/
def digitsVal? (cs : List Char) : Option Nat :=
  if cs.isEmpty || !(cs.all Char.isDigit) then none else some (natOfDigits cs)

/-- Strip whitespace from both ends of a character list (Python's
`str.strip`, as `int()` applies it). -/
def pyStrip (cs : List Char) : List Char :=
  ((cs.dropWhile Char.isWhitespace).reverse.dropWhile Char.isWhitespace).reverse

/-- Python's `int(str)`: surrounding whitespace stripped, optional sign,
then decimal digits; anything else raises `ValueError` (modelled `none`). -/
def pyInt? (s : String) : Option Int :=
  match pyStrip s.toList with
  | '+' :: u => (digitsVal? u).map (fun n => (n : Int))
  | '-' :: u => (digitsVal? u).map (fun n => -(n : Int))
  | t => (digitsVal? t).map (fun n => (n : Int))

/-- Python's string slice `s[a:b]` for non-negative bounds. -/
def pySlice (s : String) (a b : Nat) : String :=
  String.mk ((s.toList.drop a).take (b - a))

/-- A cell of the dataframe built by `pd.read_csv`: missing (`NaN`),
numeric, or a non-numeric string. -/
inductive Cell where
  | nan : Cell
  | num : ℚ → Cell
  | str : String → Cell
deriving DecidableEq

/-- Value a CSV field turns into: empty fields become `NaN`, numeric
fields become numbers, the rest stay strings. -/
def parseCell (s : String) : Cell :=
  if s = "" then .nan
  else
    match pyNum? s with
    | some q => .num q
    | none => .str s

/-- Split a character list at commas, accumulating the current field. -/
def splitCommaAux : List Char → List Char → List String
  | [], acc => [String.mk acc.reverse]
  | c :: cs, acc =>
    if c = ',' then String.mk acc.reverse :: splitCommaAux cs []
    else splitCommaAux cs (c :: acc)

/-- Comma-separated fields of one line (Python's `line.split(",")`). -/
def fieldsOf (line : String) : List String :=
  splitCommaAux line.toList []

/-- Python's `str.endswith`. -/
def pyEndsWith (s post : String) : Bool :=
  post.toList.isSuffixOf s.toList

/-- Pad a row on the right with `NaN` up to `n` cells (pandas fills
missing trailing fields of a short row with `NaN`). -/
def padTo (n : Nat) (l : List Cell) : List Cell :=
  l ++ List.replicate (n - l.length) Cell.nan

/-- One row of a parsed per-year file, after `df.columns = ['name','sex','count']`
and `df['year'] = int(file[3:7])`. -/
structure FileRec where
  name : Cell
  sex : Cell
  count : Cell
  year : Int
deriving DecidableEq

/-- Errors the load path can raise.  `requestException` is a transport
failure inside `requests.get`; `badZipFile` is `zipfile.BadZipFile`;
`emptyDataError`, `parserError` come from `pd.read_csv`;
`valueErrorColumns` is the `ValueError` from assigning 3 column names to
a table of a different width; `valueErrorYear` is the `ValueError` from
`int(file[3:7])`; `concatValueError` is `pd.concat([])`; `typeError` is
the division of an object-dtype `count` column. -/
inductive LoadError where
  | requestException : LoadError
  | badZipFile : LoadError
  | emptyDataError : LoadError
  | parserError : LoadError
  | valueErrorColumns : LoadError
  | valueErrorYear : LoadError
  | concatValueError : LoadError
  | typeError : LoadError
deriving DecidableEq

/-- Non-blank lines of a file (pandas `skip_blank_lines=True`). -/
def cleanRows (lines : List String) : List String :=
  lines.filter (fun l => decide (l ≠ ""))

/-- Column count pandas infers: the field count of the first row. -/
def ncolsOf (rows : List String) : Nat :=
  (fieldsOf (rows.headD "")).length

/-- Build one `FileRec` from a line, padding short rows with `NaN`. -/
def mkRec (y : Int) (l : String) : FileRec :=
  let cs := padTo 3 ((fieldsOf l).map parseCell)
  ⟨cs.getD 0 Cell.nan, cs.getD 1 Cell.nan, cs.getD 2 Cell.nan, y⟩

/-- Parse one per-year archive member, mirroring the loop body of
`load_name_data` (lines 20-24 of `src/main.py`): `pd.read_csv` (empty
file or over-long row fail), `df.columns = ['name','sex','count']`
(width other than 3 fails), `df['year'] = int(file[3:7])` (unparseable
year token fails). -/
def parseFile (fname : String) (lines : List String) : Except LoadError (List FileRec) :=
  if (cleanRows lines).isEmpty then .error .emptyDataError
  else if (cleanRows lines).any
      (fun l => decide (ncolsOf (cleanRows lines) < (fieldsOf l).length)) then
    .error .parserError
  else if ncolsOf (cleanRows lines) = 3 then
    match pyInt? (pySlice fname 3 7) with
    | none => .error .valueErrorYear
    | some y => .ok ((cleanRows lines).map (mkRec y))
  else .error .valueErrorColumns

/-- Outcome of `requests.get` plus `zipfile.ZipFile`: a transport
failure, or a response with a status code and a body that either is a
valid archive (member name with its lines) or is not zip-parseable. -/
inductive Fetch where
  | failure : Fetch
  | success : Nat → Option (List (String × List String)) → Fetch

/-- Parse every member in order, failing on the first bad one. -/
def parseAll : List (String × List String) → Except LoadError (List (List FileRec))
  | [] => .ok []
  | m :: ms =>
    match parseFile m.1 m.2 with
    | .error e => .error e
    | .ok df =>
      match parseAll ms with
      | .error e => .error e
      | .ok rest => .ok (df :: rest)

/-- A record of the loaded dataset, after the `pct` column is added. -/
structure LoadedRecord where
  name : Cell
  sex : Cell
  count : Cell
  year : Int
  pct : Option ℚ
deriving DecidableEq

/-- Numeric reading of a count cell; `NaN` counts as 0, as in pandas'
skip-NA group sum. -/
def numCount : Cell → ℚ
  | .num q => q
  | _ => 0

/-- Group sum of `transform('sum')`: total `count` over the rows sharing
`(year, sex)`. -/
def groupSumL (data : List FileRec) (y : Int) (s : Cell) : ℚ :=
  ((data.filter (fun r => decide (r.year = y ∧ r.sex = s))).map
    (fun r => numCount r.count)).sum

/-- Whether some `count` cell is a non-numeric string (object dtype). -/
def hasStrCount (data : List FileRec) : Bool :=
  data.any (fun r =>
    match r.count with
    | .str _ => true
    | _ => false)

/-- The `pct` value of one row: `none` models a non-finite float result
(`NaN` count, `NaN` group key dropped by `groupby`, or a zero group sum). -/
def pctOf (data : List FileRec) (r : FileRec) : Option ℚ :=
  match r.count with
  | .nan => none
  | .str _ => none
  | .num q =>
    if r.sex = Cell.nan then none
    else if groupSumL data r.year r.sex = 0 then none
    else some (q / groupSumL data r.year r.sex)

/-- Line 26 of `src/main.py`:
`data['pct'] = data['count'] / data.groupby(['year','sex'])['count'].transform('sum')`.
Division of an object-dtype `count` column raises `TypeError`. -/
def addPct (data : List FileRec) : Except LoadError (List LoadedRecord) :=
  if hasStrCount data then .error .typeError
  else .ok (data.map (fun r => ⟨r.name, r.sex, r.count, r.year, pctOf data r⟩))

/-- The loader `load_name_data` (lines 13-27 of `src/main.py`), as a
function of the fetch outcome: a transport failure propagates the
requests exception; a body that is not a valid zip raises `BadZipFile`;
otherwise members ending in `.txt` are parsed, `pd.concat` of an empty
list raises `ValueError`, and the `pct` column is added.  The HTTP
status code is never inspected. -/
def load_name_data (f : Fetch) : Except LoadError (List LoadedRecord) :=
  match f with
  | .failure => .error .requestException
  | .success _ none => .error .badZipFile
  | .success _ (some z) =>
    match parseAll (z.filter (fun m => pyEndsWith m.1 ".txt")) with
    | .error e => .error e
    | .ok dfs =>
      if dfs.isEmpty then .error .concatValueError
      else addPct dfs.flatten

/-- The spec's NameRecord: one row of the Dataset at the data-model
level on which `ohw` and the sidebar filter operate. -/
structure NameRecord where
  name : String
  sex : String
  count : Int
  year : Int
  pct : ℚ
deriving DecidableEq

/-- Count of distinct `year` values of the `(name, sex)` group:
`df.groupby(['name','sex'])['year'].nunique()` at one key. -/
def distinctYears (d : List NameRecord) (n s : String) : Nat :=
  (((d.filter (fun r => decide (r.name = n ∧ r.sex = s))).map
    (fun r => r.year)).dedup).length

/-- The index `one_hit_wonders` of line 33: the `(name, sex)` keys whose
distinct-year count is exactly 1. -/
def one_hit_wonders (d : List NameRecord) : List (String × String) :=
  ((d.map (fun r => (r.name, r.sex))).dedup).filter
    (fun p => decide (distinctYears d p.1 p.2 = 1))

/-- The extractor `ohw` (lines 31-35 of `src/main.py`): the rows whose
`(name, sex)` key is in `one_hit_wonders` (`.set_index(...).loc[...]`).
Pandas emits the selected rows key-sorted; the embedding keeps source
order, the same multiset of rows. -/
def ohw (d : List NameRecord) : List NameRecord :=
  d.filter (fun r => decide ((r.name, r.sex) ∈ one_hit_wonders d))

/-- The sidebar filter (lines 79-83 of `src/main.py`): restrict to the
selected sex unless it is "Both", then keep years `between` the bounds
(inclusive on both ends). -/
def data_filtered (d : List NameRecord) (selected_sex : String) (y0 y1 : Int) :
    List NameRecord :=
  (if selected_sex ≠ "Both" then d.filter (fun r => decide (r.sex = selected_sex)) else d).filter
    (fun r => decide (y0 ≤ r.year ∧ r.year ≤ y1))

/-- Sum of `pct` over the `(year, sex)` group of the loaded dataset;
a non-finite `pct` contributes its `getD 0` default (the invariant
theorems only use this where every `pct` is finite). -/
def groupPctSum (recs : List LoadedRecord) (y : Int) (s : Cell) : ℚ :=
  ((recs.filter (fun r => decide (r.year = y ∧ r.sex = s))).map
    (fun r => r.pct.getD 0)).sum

/-- C1: for every dataset, the one-hit-wonder extractor `ohw` returns
exactly the records whose `(name, sex)` pair has exactly one distinct
`year` value in the input: membership in the output is equivalent to
membership in the input together with a distinct-year count of 1, so no
pair with two or more distinct years contributes any record. -/
theorem c1_ohw_characterization (d : List NameRecord) (r : NameRecord) :
    r ∈ ohw d ↔ r ∈ d ∧ distinctYears d r.name r.sex = 1 := by
  constructor
  · intro h
    simp only [ohw, List.mem_filter, decide_eq_true_eq] at h
    obtain ⟨hd, hp⟩ := h
    simp only [one_hit_wonders, List.mem_filter, decide_eq_true_eq] at hp
    exact ⟨hd, hp.2⟩
  · rintro ⟨hd, hcnt⟩
    simp only [ohw, List.mem_filter, decide_eq_true_eq]
    refine ⟨hd, ?_⟩
    simp only [one_hit_wonders, List.mem_filter, decide_eq_true_eq]
    exact ⟨List.mem_dedup.mpr (List.mem_map.mpr ⟨r, hd, rfl⟩), hcnt⟩

/-- C9: on the empty dataset the one-hit-wonder extractor returns the
empty collection; being a total function of the embedding, it raises no
error. -/
theorem c9_ohw_empty_dataset : ohw ([] : List NameRecord) = [] := rfl

/-- C3: the sidebar filter keeps exactly the records whose year lies in
the inclusive interval; sex "Both" excludes nothing on the sex
dimension, while "M"/"F" additionally require that sex value. -/
theorem c3_filter_characterization (d : List NameRecord) (r : NameRecord) (s : String)
    (y0 y1 : Int) (_hrange : y0 ≤ y1) (hs : s = "M" ∨ s = "F" ∨ s = "Both") :
    r ∈ data_filtered d s y0 y1 ↔
      r ∈ d ∧ (s = "Both" ∨ r.sex = s) ∧ y0 ≤ r.year ∧ r.year ≤ y1 := by
  rcases hs with h | h | h <;> subst h
  · simp only [data_filtered]
    rw [if_pos (by decide : ("M" : String) ≠ "Both")]
    simp only [List.mem_filter, decide_eq_true_eq]
    constructor
    · rintro ⟨⟨hd, hsex⟩, hy⟩
      exact ⟨hd, Or.inr hsex, hy⟩
    · rintro ⟨hd, hsex, hy⟩
      refine ⟨⟨hd, ?_⟩, hy⟩
      rcases hsex with hB | hsex
      · exact absurd hB (by decide)
      · exact hsex
  · simp only [data_filtered]
    rw [if_pos (by decide : ("F" : String) ≠ "Both")]
    simp only [List.mem_filter, decide_eq_true_eq]
    constructor
    · rintro ⟨⟨hd, hsex⟩, hy⟩
      exact ⟨hd, Or.inr hsex, hy⟩
    · rintro ⟨hd, hsex, hy⟩
      refine ⟨⟨hd, ?_⟩, hy⟩
      rcases hsex with hB | hsex
      · exact absurd hB (by decide)
      · exact hsex
  · simp only [data_filtered]
    rw [if_neg (by simp : ¬("Both" : String) ≠ "Both")]
    simp only [List.mem_filter, decide_eq_true_eq]
    constructor
    · rintro ⟨hd, hy⟩
      exact ⟨hd, Or.inl trivial, hy⟩
    · rintro ⟨hd, _, hy⟩
      exact ⟨hd, hy⟩

/-- Witness for C3 at a concrete dataset, record and range. -/
theorem c3_filter_witness :
    (⟨"Ann", "F", 10, 1885, 1⟩ : NameRecord) ∈
        data_filtered [⟨"Ann", "F", 10, 1885, 1⟩] "Both" 1880 1890 ↔
      (⟨"Ann", "F", 10, 1885, 1⟩ : NameRecord) ∈ [(⟨"Ann", "F", 10, 1885, 1⟩ : NameRecord)] ∧
      (("Both" : String) = "Both" ∨ (⟨"Ann", "F", 10, 1885, 1⟩ : NameRecord).sex = "Both") ∧
      (1880 : Int) ≤ (⟨"Ann", "F", 10, 1885, 1⟩ : NameRecord).year ∧
      (⟨"Ann", "F", 10, 1885, 1⟩ : NameRecord).year ≤ 1890 :=
  c3_filter_characterization [⟨"Ann", "F", 10, 1885, 1⟩] ⟨"Ann", "F", 10, 1885, 1⟩ "Both"
    1880 1890 (by decide) (Or.inr (Or.inr rfl))

/-- C7 counterexample: at the concrete inverted range `y0 = 2000 >
1999 = y1` the filter does not fail with any error: it returns the
empty dataset. -/
theorem c7_counterexample :
    data_filtered [⟨"Ann", "F", 10, 1885, 1⟩] "M" 2000 1999 = [] := by decide

/-- C7 amended: with an inverted range (`y0 > y1`) the filter raises no
`InvalidRangeError` (none exists in the code); the `between` mask is
all-false and the empty dataset is returned. -/
theorem c7_amended_inverted_range_returns_empty (d : List NameRecord) (s : String)
    (y0 y1 : Int) (h : y1 < y0) : data_filtered d s y0 y1 = [] := by
  simp only [data_filtered]
  refine List.filter_eq_nil_iff.mpr ?_
  intro a _
  simp only [decide_eq_true_eq]
  omega

/-- Witness for the amended C7 at a concrete inverted range. -/
theorem c7_amended_witness : data_filtered ([] : List NameRecord) "F" 5 3 = [] :=
  c7_amended_inverted_range_returns_empty [] "F" 5 3 (by decide)

/-- Inversion of a successful per-year file parse: the year token parsed
and every row is `mkRec` of a non-blank line. -/
theorem parseFile_ok_inv {fname : String} {lines : List String} {df : List FileRec}
    (h : parseFile fname lines = .ok df) :
    ∃ y, pyInt? (pySlice fname 3 7) = some y ∧ df = (cleanRows lines).map (mkRec y) ∧
      (cleanRows lines).isEmpty = false := by
  unfold parseFile at h
  split at h
  · exact absurd h (by simp)
  · rename_i hne
    split at h
    · exact absurd h (by simp)
    · split at h
      · split at h
        · exact absurd h (by simp)
        · rename_i y hy
          exact ⟨y, hy, (Except.ok.inj h).symm, (Bool.not_eq_true _).mp hne⟩
      · exact absurd h (by simp)

/-- A successfully parsed per-year file contributes at least one row. -/
theorem parseFile_ok_ne_nil {fname : String} {lines : List String} {df : List FileRec}
    (h : parseFile fname lines = .ok df) : df ≠ [] := by
  obtain ⟨y, -, rfl, hne⟩ := parseFile_ok_inv h
  intro hnil
  rw [List.map_eq_nil_iff] at hnil
  rw [hnil] at hne
  simp at hne

/-- If parsing every member succeeded, each member parsed successfully. -/
theorem parseAll_ok_mem : ∀ {l : List (String × List String)} {dfs : List (List FileRec)},
    parseAll l = .ok dfs → ∀ {m : String × List String}, m ∈ l →
    ∃ df, parseFile m.1 m.2 = .ok df := by
  intro l
  induction l with
  | nil => intro dfs h m hm; cases hm
  | cons a t ih =>
    intro dfs h m hm
    cases hpf : parseFile a.1 a.2 with
    | error e => simp [parseAll, hpf] at h
    | ok df =>
      cases hpa : parseAll t with
      | error e => simp [parseAll, hpf, hpa] at h
      | ok rest =>
        rcases List.mem_cons.mp hm with rfl | hm2
        · exact ⟨df, hpf⟩
        · exact ih hpa hm2

/-- If parsing every member succeeded, every produced table comes from a
successful parse of some member. -/
theorem parseAll_ok_forall : ∀ {l : List (String × List String)} {dfs : List (List FileRec)},
    parseAll l = .ok dfs → ∀ df ∈ dfs, ∃ m, m ∈ l ∧ parseFile m.1 m.2 = .ok df := by
  intro l
  induction l with
  | nil =>
    intro dfs h df hdf
    simp [parseAll] at h
    subst h
    cases hdf
  | cons a t ih =>
    intro dfs h df hdf
    cases hpf : parseFile a.1 a.2 with
    | error e => simp [parseAll, hpf] at h
    | ok d0 =>
      cases hpa : parseAll t with
      | error e => simp [parseAll, hpf, hpa] at h
      | ok rest =>
        simp only [parseAll, hpf, hpa] at h
        have hd : dfs = d0 :: rest := (Except.ok.inj h).symm
        subst hd
        rcases List.mem_cons.mp hdf with rfl | hmem
        · exact ⟨a, List.mem_cons_self a t, hpf⟩
        · obtain ⟨m, hm, hpm⟩ := ih hpa df hmem
          exact ⟨m, List.mem_cons_of_mem a hm, hpm⟩

/-- C10: the loader parses records only from archive members whose names
end in ".txt": loading an archive gives exactly the same result as
loading the archive restricted to its ".txt" members, so any other
member contributes no records and raises no error. -/
theorem c10_only_txt_members (st : Nat) (z : List (String × List String)) :
    load_name_data (.success st (some z)) =
      load_name_data (.success st (some (z.filter (fun m => pyEndsWith m.1 ".txt")))) := by
  have hz : (z.filter (fun m => pyEndsWith m.1 ".txt")).filter
      (fun m => pyEndsWith m.1 ".txt") = z.filter (fun m => pyEndsWith m.1 ".txt") := by
    simp [List.filter_filter]
  simp only [load_name_data, hz]

/-- C8: the year field of every record parsed from a per-year file is
the integer Python's `int` reads from the 4-character slice at offset 3
of the file name (`file[3:7]`, "1880" in "yob1880.txt"); in particular a
successful parse forces that token to be parseable, so an unparseable
token fails the load (the `some _ = pyInt? _` conclusion is
unsatisfiable when `pyInt?` returns `none`). -/
theorem c8_year_from_filename (fname : String) (lines : List String) (df : List FileRec)
    (h : parseFile fname lines = .ok df) (r : FileRec) (hr : r ∈ df) :
    pyInt? (pySlice fname 3 7) = some r.year := by
  obtain ⟨y, hy, hdf, -⟩ := parseFile_ok_inv h
  subst hdf
  obtain ⟨l, -, rfl⟩ := List.mem_map.mp hr
  exact hy

/-- Witness for C8 on the concrete file "yob1880.txt". -/
theorem c8_year_witness :
    pyInt? (pySlice "yob1880.txt" 3 7) =
      some ((⟨.str "Mary", .str "F", .num 7065, 1880⟩ : FileRec).year) :=
  c8_year_from_filename "yob1880.txt" ["Mary,F,7065"]
    [⟨.str "Mary", .str "F", .num 7065, 1880⟩] (by decide)
    ⟨.str "Mary", .str "F", .num 7065, 1880⟩ (List.mem_singleton.mpr rfl)

/-- C4 counterexample: an archive whose per-year file has a malformed
line — "Bob,M" has only two comma-separated fields — does NOT fail the
load: pandas pads the short row with `NaN` and the loader returns a
dataset that includes the padded record. -/
theorem c4_counterexample :
    load_name_data (.success 200 (some [("yob2000.txt", ["Anna,F,10", "Bob,M"])])) =
      .ok [⟨.str "Anna", .str "F", .num 10, 2000, some 1⟩,
        ⟨.str "Bob", .str "M", .nan, 2000, none⟩] := by
  have h1 : parseAll ([("yob2000.txt", ["Anna,F,10", "Bob,M"])].filter
      (fun m => pyEndsWith m.1 ".txt")) =
      .ok [[⟨.str "Anna", .str "F", .num 10, 2000⟩, ⟨.str "Bob", .str "M", .nan, 2000⟩]] := by
    decide
  simp only [load_name_data, h1]
  simp [addPct, hasStrCount, pctOf, groupSumL, numCount]

/-- C4 amended: malformed input that pandas itself rejects (first line
without exactly 3 fields, a line with more fields than the first, an
empty file, an unparseable year token, a non-numeric count reaching the
division) fails the whole load with the corresponding pandas error — not
a `MalformedSourceError`, which does not exist — and no partial dataset
is returned: a successful load implies every ".txt" member parsed
successfully.  A line with fewer fields than the first is not treated as
malformed: it is padded with `NaN` (see the counterexample). -/
theorem c4_amended_all_or_nothing (st : Nat) (z : List (String × List String))
    (recs : List LoadedRecord) (h : load_name_data (.success st (some z)) = .ok recs)
    (m : String × List String) (hm : m ∈ z) (ht : pyEndsWith m.1 ".txt" = true) :
    ∃ df, parseFile m.1 m.2 = .ok df := by
  cases hpa : parseAll (z.filter (fun m => pyEndsWith m.1 ".txt")) with
  | error e => simp [load_name_data, hpa] at h
  | ok dfs => exact parseAll_ok_mem hpa (List.mem_filter.mpr ⟨hm, ht⟩)

/-- Witness for the amended C4 on a concrete archive with a ".txt" and a
non-".txt" member. -/
theorem c4_amended_witness :
    ∃ df, parseFile "yob2000.txt" ["Ann,F,3"] = .ok df :=
  c4_amended_all_or_nothing 200 [("yob2000.txt", ["Ann,F,3"]), ("README", ["junk"])]
    [⟨.str "Ann", .str "F", .num 3, 2000, some 1⟩]
    (by
      have h1 : parseAll ([("yob2000.txt", ["Ann,F,3"]), ("README", ["junk"])].filter
          (fun m => pyEndsWith m.1 ".txt")) =
          .ok [[⟨.str "Ann", .str "F", .num 3, 2000⟩]] := by decide
      simp only [load_name_data, h1]
      simp [addPct, hasStrCount, pctOf, groupSumL, numCount])
    ("yob2000.txt", ["Ann,F,3"]) (by simp) (by decide)

/-- C5 counterexample: an execution whose fetch returns a non-2xx
response (status 404) whose body happens to be a valid archive does not
fail at all — no `SourceUnavailableError` exists and the status code is
never checked — the loader returns a dataset built from the error
response's body. -/
theorem c5_counterexample :
    load_name_data (.success 404 (some [("yob1999.txt", ["Ann,F,3"])])) =
      .ok [⟨.str "Ann", .str "F", .num 3, 1999, some 1⟩] := by
  have h1 : parseAll ([("yob1999.txt", ["Ann,F,3"])].filter
      (fun m => pyEndsWith m.1 ".txt")) = .ok [[⟨.str "Ann", .str "F", .num 3, 1999⟩]] := by
    decide
  simp only [load_name_data, h1]
  simp [addPct, hasStrCount, pctOf, groupSumL, numCount]

/-- C5 amended: a transport failure surfaces the underlying requests
exception (there is no dedicated `SourceUnavailableError`); the HTTP
status code is never inspected, so the load result is independent of it
(a non-2xx body is processed like any other, typically failing as
`BadZipFile` when it is not an archive); and a successful load never
returns an empty dataset. -/
theorem c5_amended_transport_and_status :
    load_name_data Fetch.failure = Except.error LoadError.requestException ∧
    (∀ (st st' : Nat) (b : Option (List (String × List String))),
      load_name_data (.success st b) = load_name_data (.success st' b)) ∧
    (∀ (f : Fetch) (recs : List LoadedRecord), load_name_data f = .ok recs → recs ≠ []) := by
  refine ⟨rfl, fun st st' b => by cases b <;> rfl, fun f recs h => ?_⟩
  cases f with
  | failure => simp [load_name_data] at h
  | success st b =>
    cases b with
    | none => simp [load_name_data] at h
    | some z =>
      cases hpa : parseAll (z.filter (fun m => pyEndsWith m.1 ".txt")) with
      | error e => simp [load_name_data, hpa] at h
      | ok dfs =>
        simp only [load_name_data, hpa] at h
        cases dfs with
        | nil => simp at h
        | cons d0 rest =>
          have hd0 : d0 ≠ [] := by
            obtain ⟨m, -, hpm⟩ := parseAll_ok_forall hpa d0 (List.mem_cons_self d0 rest)
            exact parseFile_ok_ne_nil hpm
          simp only [List.isEmpty_cons, if_false] at h
          rw [addPct] at h
          cases hsc : hasStrCount ((d0 :: rest).flatten) with
          | true => rw [hsc] at h; simp at h
          | false =>
            rw [hsc] at h
            simp only [Bool.false_eq_true, if_false, Except.ok.injEq] at h
            subst h
            simp only [ne_eq, List.map_eq_nil_iff, List.flatten_eq_nil_iff]
            intro hall
            exact hd0 (hall d0 (List.mem_cons_self d0 rest))

/-- Witness for the amended C5: its never-empty conjunct applied to a
concrete successful load. -/
theorem c5_amended_witness :
    ([(⟨.str "Liam", .str "M", .num 7, 1990, some 1⟩ : LoadedRecord)] :
      List LoadedRecord) ≠ [] :=
  c5_amended_transport_and_status.2.2 (.success 200 (some [("yob1990.txt", ["Liam,M,7"])]))
    [⟨.str "Liam", .str "M", .num 7, 1990, some 1⟩]
    (by
      have h1 : parseAll ([("yob1990.txt", ["Liam,M,7"])].filter
          (fun m => pyEndsWith m.1 ".txt")) =
          .ok [[⟨.str "Liam", .str "M", .num 7, 1990⟩]] := by decide
      simp only [load_name_data, h1]
      simp [addPct, hasStrCount, pctOf, groupSumL, numCount])

/-- C6 counterexample: a loaded input whose (2000, F) group has summed
count 0 does not fail with any divide-by-zero error: the load succeeds
and the group's record carries a non-finite `pct` (modelled `none`,
pandas' `NaN`). -/
theorem c6_counterexample :
    load_name_data (.success 200 (some [("yob2000.txt", ["X,F,0"])])) =
      .ok [⟨.str "X", .str "F", .num 0, 2000, none⟩] := by
  have h1 : parseAll ([("yob2000.txt", ["X,F,0"])].filter
      (fun m => pyEndsWith m.1 ".txt")) = .ok [[⟨.str "X", .str "F", .num 0, 2000⟩]] := by
    decide
  simp only [load_name_data, h1]
  simp [addPct, hasStrCount, pctOf, groupSumL, numCount]

/-- C6 amended: when a record's `(year, sex)` group has summed count 0,
the `pct` computation does not fail (no `DivideByZeroError` exists in
the code): it succeeds and that record's `pct` is non-finite
(pandas `NaN`/`inf`, modelled `none`). -/
theorem c6_amended_zero_sum_nonfinite_pct (data : List FileRec)
    (hstr : hasStrCount data = false) (r : FileRec) (hr : r ∈ data)
    (hsum : groupSumL data r.year r.sex = 0) :
    ∃ recs, addPct data = .ok recs ∧
      (⟨r.name, r.sex, r.count, r.year, none⟩ : LoadedRecord) ∈ recs := by
  refine ⟨data.map (fun r => ⟨r.name, r.sex, r.count, r.year, pctOf data r⟩), ?_, ?_⟩
  · simp [addPct, hstr]
  · have hpct : pctOf data r = none := by
      cases hc : r.count with
      | nan => simp [pctOf, hc]
      | str s => simp [pctOf, hc]
      | num q =>
        by_cases hsex : r.sex = Cell.nan
        · simp [pctOf, hc, hsex]
        · simp [pctOf, hc, hsex, hsum]
    exact List.mem_map.mpr ⟨r, hr, by rw [hpct]⟩

/-- Witness for the amended C6 on a concrete zero-sum group. -/
theorem c6_amended_witness :
    ∃ recs, addPct [⟨.str "X", .str "F", .num 0, 2000⟩] = .ok recs ∧
      (⟨.str "X", .str "F", .num 0, 2000, none⟩ : LoadedRecord) ∈ recs :=
  c6_amended_zero_sum_nonfinite_pct [⟨.str "X", .str "F", .num 0, 2000⟩] (by decide)
    ⟨.str "X", .str "F", .num 0, 2000⟩ (by simp)
    (by simp [groupSumL, numCount])

/-- Filtering a mapped list is mapping the filtered list. -/
theorem filterMapComm {α β : Type} (f : α → β) (p : β → Bool) (l : List α) :
    (l.map f).filter p = (l.filter (fun a => p (f a))).map f := by
  induction l with
  | nil => rfl
  | cons a t ih => cases h : p (f a) <;> simp [List.filter_cons, h, ih]

/-- Summing the defaulted `pct` values of rows whose `pct` is their
count over a common denominator gives the summed counts over that
denominator. -/
theorem sum_pct_div (l : List FileRec) (F : FileRec → Option ℚ) (S : ℚ)
    (h : ∀ r ∈ l, F r = some (numCount r.count / S)) :
    (l.map (fun r => (F r).getD 0)).sum = (l.map (fun r => numCount r.count)).sum / S := by
  induction l with
  | nil => simp
  | cons a t ih =>
    simp only [List.map_cons, List.sum_cons]
    rw [h a (List.mem_cons_self a t), ih (fun r hr => h r (List.mem_cons_of_mem a hr))]
    simp [add_div]

/-- C2: in the dataset produced by the `pct` step of the loader, for a
`(year, sex)` group whose counts are numeric and whose summed count is
positive, every record's `pct` is its count divided by the group's
summed count, and the `pct` values of the group sum to exactly 1 (the
claim's rational-arithmetic reading). -/
theorem c2_pct_group_invariant (data : List FileRec) (y : Int) (s : Cell)
    (recs : List LoadedRecord) (h : addPct data = .ok recs) (hs : s ≠ Cell.nan)
    (hnum : ∀ r ∈ data, r.year = y → r.sex = s → ∃ q, r.count = Cell.num q)
    (hpos : 0 < groupSumL data y s) :
    (∀ r ∈ recs, r.year = y → r.sex = s →
      r.pct = some (numCount r.count / groupSumL data y s)) ∧
    groupPctSum recs y s = 1 := by
  have hrecs : recs = data.map
      (fun r => (⟨r.name, r.sex, r.count, r.year, pctOf data r⟩ : LoadedRecord)) := by
    rw [addPct] at h
    cases hsc : hasStrCount data with
    | true => rw [hsc] at h; simp at h
    | false =>
      rw [hsc] at h
      simp only [Bool.false_eq_true, if_false, Except.ok.injEq] at h
      exact h.symm
  have hkey : ∀ r ∈ data, r.year = y → r.sex = s →
      pctOf data r = some (numCount r.count / groupSumL data y s) := by
    intro r hr hy hsx
    obtain ⟨q, hq⟩ := hnum r hr hy hsx
    rw [pctOf, hq, hy, hsx]
    show (if s = Cell.nan then none
      else if groupSumL data y s = 0 then none
      else some (q / groupSumL data y s)) = some (q / groupSumL data y s)
    rw [if_neg hs, if_neg (ne_of_gt hpos)]
  constructor
  · intro r' hr' hy' hs'
    rw [hrecs] at hr'
    obtain ⟨r, hr, rfl⟩ := List.mem_map.mp hr'
    exact hkey r hr hy' hs'
  · rw [hrecs, groupPctSum, filterMapComm]
    rw [List.map_map]
    have hmem : ∀ r ∈ data.filter
        (fun a => decide (a.year = y ∧ a.sex = s)),
        pctOf data r = some (numCount r.count / groupSumL data y s) := by
      intro r hr
      obtain ⟨hrd, hp⟩ := List.mem_filter.mp hr
      obtain ⟨hy, hsx⟩ := of_decide_eq_true hp
      exact hkey r hrd hy hsx
    calc ((data.filter (fun a => decide (a.year = y ∧ a.sex = s))).map
            ((fun r : LoadedRecord => r.pct.getD 0) ∘
              (fun r => (⟨r.name, r.sex, r.count, r.year, pctOf data r⟩ : LoadedRecord)))).sum
        = ((data.filter (fun a => decide (a.year = y ∧ a.sex = s))).map
            (fun r => (pctOf data r).getD 0)).sum := rfl
      _ = ((data.filter (fun a => decide (a.year = y ∧ a.sex = s))).map
            (fun r => numCount r.count)).sum / groupSumL data y s :=
          sum_pct_div _ (pctOf data) (groupSumL data y s) hmem
      _ = groupSumL data y s / groupSumL data y s := rfl
      _ = 1 := div_self (ne_of_gt hpos)

/-- Witness for C2 on a concrete one-record group. -/
theorem c2_pct_witness :
    (∀ r ∈ ([⟨.str "Ann", .str "F", .num 3, 1990, some 1⟩] : List LoadedRecord),
      r.year = 1990 → r.sex = Cell.str "F" →
      r.pct = some (numCount r.count /
        groupSumL [⟨.str "Ann", .str "F", .num 3, 1990⟩] 1990 (Cell.str "F"))) ∧
    groupPctSum [⟨.str "Ann", .str "F", .num 3, 1990, some 1⟩] 1990 (Cell.str "F") = 1 :=
  c2_pct_group_invariant [⟨.str "Ann", .str "F", .num 3, 1990⟩] 1990 (Cell.str "F")
    [⟨.str "Ann", .str "F", .num 3, 1990, some 1⟩]
    (by simp [addPct, hasStrCount, pctOf, groupSumL, numCount]) (by decide)
    (fun r hr h1 h2 => ⟨3, by rw [List.mem_singleton.mp hr]⟩)
    (by norm_num [groupSumL, numCount])
